import Mathlib

/-!
# Verification of the IntelOwl plugin execution lifecycle

Shallow embedding of `api_app/classes.py` (the `Plugin` base class: `start`,
`after_run`, `after_run_success`, `after_run_failed`, `disable_for_rate_limit`,
`_get_health_check_url`, `health_check`) and of
`api_app/engines_manager/tasks.py` (`execute_engine_module`).

Python objects are modelled as explicit state records; exceptions as an `Exn`
record carrying the attributes the code inspects; the `try/except/else/finally`
of `Plugin.start` as explicit sequencing.
-/

namespace IntelOwl

/-! ## Basic helpers -/

/-- Substring test, modelling Python's `in` / Django's `name__contains`. -/
def strContains (s pattern : String) : Bool :=
  decide (pattern.toList <:+: s.toList)

/-- Case-insensitive substring test, modelling Django's `name__icontains`. -/
def strIContains (s pattern : String) : Bool :=
  strContains s.toLower pattern.toLower

/-- Python's `str.startswith`: prefix test. -/
def strStartsWith (s pre : String) : Bool :=
  decide (pre.toList <+: s.toList)

/-- Python truthiness of an optional string value (`None` and `""` are falsy). -/
def optTruthy : Option String → Bool
  | none => false
  | some s => !(s == "")

/-- The standard base64 alphabet, as used by `base64.b64encode`. -/
def base64Alphabet : List Char :=
  "ABCDEFGHIJKLMNOPQRSTUVWXYZabcdefghijklmnopqrstuvwxyz0123456789+/".toList

/-- Character of the base64 alphabet at index `i` (i < 64). -/
def base64Char (i : Nat) : Char :=
  base64Alphabet.getD i 'A'

/-- Base64 encoding of a byte sequence, grouped three bytes at a time,
modelling `base64.b64encode(...).decode("utf-8")`. -/
def base64EncodeChars : List Nat → List Char
  | [] => []
  | [a] =>
    [base64Char (a / 4 % 64), base64Char (a % 4 * 16), '=', '=']
  | [a, b] =>
    [base64Char (a / 4 % 64), base64Char ((a % 4) * 16 + b / 16 % 16),
     base64Char (b % 16 * 4), '=']
  | a :: b :: c :: rest =>
    base64Char (a / 4 % 64) :: base64Char ((a % 4) * 16 + b / 16 % 16) ::
    base64Char ((b % 16) * 4 + c / 64 % 4) :: base64Char (c % 64) ::
    base64EncodeChars rest

/-- `base64.b64encode(bs).decode("utf-8")` as a string. -/
def b64encode (bs : List Nat) : String :=
  String.mk (base64EncodeChars bs)

/-! ## Result payload values

`run()` returns an arbitrary Python value; `after_run_success` inspects only
whether it is a `list` and, elementwise, whether an element is a `File` or
`bytes`. Everything else is carried opaquely. -/

/-- A Python value as relevant to `after_run_success`: `File` objects (with the
bytes `.read()` yields), `bytes`, strings, numbers, dicts and lists. -/
inductive RValue where
  | vfile (data : List Nat)
  | vbytes (data : List Nat)
  | vstr (s : String)
  | vnum (n : Int)
  | vdict (entries : List (String × RValue))
  | vlist (elems : List RValue)

/-- Whether a value is a Python `list` (`isinstance(report_content, typing.List)`). -/
def RValue.isList : RValue → Bool
  | .vlist _ => true
  | _ => false

/-! ## Exceptions

An exception is modelled by the attributes the engine inspects:
its `str()` message, whether it is a `requests.HTTPError` (and the
`response.status_code` if a response is attached), whether it is a
`SoftTimeLimitExceeded`, and whether its type is in the plugin's
`get_exceptions_to_catch()` allow-list. -/

structure Exn where
  msg : String
  isHTTPError : Bool := false
  responseStatusCode : Option Nat := none
  isSoftTimeLimit : Bool := false
  isDeclared : Bool := false
deriving DecidableEq, Repr

/-- The `AttributeError` raised when `disable_for_rate_limit` touches
`self.__parameters` although `config()` never ran to completion. -/
def attributeError : Exn :=
  { msg := "'Plugin' object has no attribute '_Plugin__parameters'" }

/-- `isinstance(e, HTTPError) and hasattr(e, "response") and
hasattr(e.response, "status_code") and e.response.status_code == 429`. -/
def Exn.isRateLimit (e : Exn) : Bool :=
  e.isHTTPError && e.responseStatusCode == some 429

/-! ## Reports, parameters, jobs -/

/-- `AbstractReport.STATUSES` as used by the lifecycle. -/
inductive ReportStatus where
  | RUNNING
  | SUCCESS
  | FAILED
deriving DecidableEq, Repr

/-- The report record mutated by the plugin instance.  `report` is the content
payload (`self.report.report`); `endTimeSets` counts the assignments to
`self.report.end_time`. -/
structure Report where
  task_id : String
  status : ReportStatus
  report : Option RValue
  errors : List String
  endTimeSets : Nat

/-- `generate_empty_report(job, task_id, RUNNING)`: fresh report in RUNNING
status with no content, no errors and no end time. -/
def generate_empty_report (task_id : String) : Report :=
  { task_id := task_id
    status := .RUNNING
    report := none
    errors := []
    endTimeSets := 0 }

/-- A resolved plugin parameter as produced by `read_configured_params`. -/
structure Parameter where
  name : String
  value : Option String
  is_secret : Bool
  required : Bool
  is_from_org : Bool
deriving DecidableEq, Repr

/-- A stored job; `userHasMembership` models `job.user.has_membership()`. -/
structure Job where
  id : Nat
  userHasMembership : Bool
deriving DecidableEq, Repr

/-- `Job.objects.get(pk=job_id)`: lookup in the job store; `none` models the
`Job.DoesNotExist` exception. -/
def jobGet (store : List Job) (job_id : Nat) : Option Job :=
  store.find? (fun j => j.id == job_id)

/-! ## Plugin behaviour

A concrete plugin execution is determined by: the resolved parameters,
whether `config`/`before_run` raise, what `run` returns or raises, the
organization configuration, and the settings flags. -/

structure PluginSpec where
  /-- Result of `self._config.read_configured_params(user, runtime_configuration)`. -/
  params : List Parameter
  /-- Exception raised by parameter resolution inside `config`, if any. -/
  configRaises : Option Exn := none
  /-- Exception raised by `before_run`, if any. -/
  beforeRunRaises : Option Exn := none
  /-- What `run()` does: returns a value or raises. -/
  runOutcome : Except Exn RValue
  /-- `get_or_create_org_configuration(org).rate_limit_timeout`. -/
  orgRateLimitTimeout : Option Nat := none
  /-- `settings.STAGE_CI`. -/
  stageCI : Bool := false

/-- Mutable state threaded through one `start` execution. -/
structure ExecState where
  report : Report
  /-- Number of calls to `org_configuration.disable_for_rate_limit()`. -/
  disableCalls : Nat
  /-- Number of completed calls to `after_run`. -/
  afterRunCalls : Nat

/-! ## The lifecycle methods -/

/-- `after_run`: stamps `self.report.end_time = timezone.now()` and saves. -/
def after_run (s : ExecState) : ExecState :=
  { s with
    report := { s.report with endTimeSets := s.report.endTimeSets + 1 }
    afterRunCalls := s.afterRunCalls + 1 }

/-- The content normalization in `after_run_success`: a list has its `File`
and `bytes` elements base64-encoded (as UTF-8 strings); any other payload is
kept as-is. -/
def normalizeContent (content : RValue) : RValue :=
  match content with
  | .vlist elems =>
    .vlist (elems.map fun n =>
      match n with
      | .vfile data => .vstr (b64encode data)
      | .vbytes data => .vstr (b64encode data)
      | other => other)
  | other => other

/-- `after_run_success(content)`: store the (normalized) content and mark the
report SUCCESS. -/
def after_run_success (content : RValue) (s : ExecState) : ExecState :=
  { s with
    report := { s.report with
      report := some (normalizeContent content)
      status := .SUCCESS } }

/-- First parameter whose name contains `"api_key"`
(`self.__parameters.filter(name__contains="api_key").first()`). -/
def firstApiKeyParameter (params : List Parameter) : Option Parameter :=
  (params.filter (fun p => strContains p.name "api_key")).head?

/-- `disable_for_rate_limit`.  `params?` is `self.__parameters` when `config`
completed, `none` otherwise (in which case touching it raises
`AttributeError`, returned as `.error`).  The returned state counts the calls
to the org configuration's disable action. -/
def disable_for_rate_limit (params? : Option (List Parameter)) (job : Job)
    (p : PluginSpec) (s : ExecState) : Except Exn ExecState :=
  if job.userHasMembership then
    if p.orgRateLimitTimeout ≠ none then
      match params? with
      | none => .error attributeError
      | some params =>
        match firstApiKeyParameter params with
        | none => .ok { s with disableCalls := s.disableCalls + 1 }
        | some q =>
          if q.is_from_org || (!q.required && !optTruthy q.value) then
            .ok { s with disableCalls := s.disableCalls + 1 }
          else
            -- personal api key: log a warning, skip the disable
            .ok s
    else
      -- no rate limit timeout configured: warn, take no action
      .ok s
  else
    -- user not in an organization: informational log only
    .ok s

/-- `after_run_failed(e)`: append the stringified error, mark FAILED, then
route HTTP 429 errors to the circuit breaker (everything else to
`log_error`, which only logs).  Returns the new state together with the
exception propagating out of the handler, if any: `AttributeError` from the
circuit breaker, or `e` itself re-raised when `settings.STAGE_CI`. -/
def after_run_failed (params? : Option (List Parameter)) (job : Job)
    (p : PluginSpec) (e : Exn) (s : ExecState) : ExecState × Option Exn :=
  let s₁ : ExecState :=
    { s with report := { s.report with
        errors := s.report.errors ++ [e.msg]
        status := .FAILED } }
  if e.isRateLimit then
    match disable_for_rate_limit params? job p s₁ with
    | .error attrErr => (s₁, some attrErr)
    | .ok s₂ => (s₂, if p.stageCI then some e else none)
  else
    -- log_error(e): logging only, no state change
    (s₁, if p.stageCI then some e else none)

/-- Outcome of a `start` call that got past the job lookup: the final report,
the circuit-breaker call count, the number of `after_run` executions, and the
exception that propagated to the caller, if any. -/
structure Outcome where
  report : Report
  disableCalls : Nat
  afterRunCalls : Nat
  raised : Option Exn

/-- `LookupFailure`: the job id did not resolve (`Job.DoesNotExist`). -/
inductive StartError where
  | jobNotFound (job_id : Nat)
deriving DecidableEq, Repr

/-- `Plugin.start(job_id, runtime_configuration, task_id)`.

Mirrors the source:
* bind `job_id` and look the job up (`self._job`); a failed lookup raises
  before any report exists (`.error`);
* `generate_empty_report` in RUNNING status;
* `try: config; before_run; run  except: after_run_failed  else:
  after_run_success  finally: after_run`. -/
def start (store : List Job) (p : PluginSpec) (job_id : Nat) (task_id : String) :
    Except StartError Outcome :=
  match jobGet store job_id with
  | none => .error (.jobNotFound job_id)
  | some job =>
    let s₀ : ExecState :=
      { report := generate_empty_report task_id
        disableCalls := 0
        afterRunCalls := 0 }
    -- the try block: config(runtime_configuration); before_run(); run()
    let tryResult : Except Exn RValue :=
      match p.configRaises with
      | some e => .error e
      | none =>
        match p.beforeRunRaises with
        | some e => .error e
        | none => p.runOutcome
    -- self.__parameters exists iff config() completed
    let params? : Option (List Parameter) :=
      match p.configRaises with
      | some _ => none
      | none => some p.params
    let (s₁, raised) :=
      match tryResult with
      | .error e => after_run_failed params? job p e s₀
      | .ok v => (after_run_success v s₀, none)
    -- finally: after_run()
    let s₂ := after_run s₁
    .ok { report := s₂.report
          disableCalls := s₂.disableCalls
          afterRunCalls := s₂.afterRunCalls
          raised := raised }

/-! ## Health check -/

/-- A parameter as seen by `_get_health_check_url` after the
`annotate_configured` / `annotate_value_for_user` annotations. -/
structure AnnotatedParameter where
  name : String
  configured : Bool
  value : Option String
deriving DecidableEq, Repr

/-- `_get_health_check_url(user)`: first configured, truthy-valued parameter
whose name contains "url" (case-insensitively); else the instance's `url`
attribute when set and truthy; else `None`. -/
def get_health_check_url (params : List AnnotatedParameter)
    (urlAttr : Option String) : Option String :=
  match (params.filter (fun q => strIContains q.name "url")).find?
      (fun q => q.configured && optTruthy q.value) with
  | some q => q.value
  | none => if optTruthy urlAttr then urlAttr else none

/-- What the `requests.head` probe does. -/
inductive ProbeResult where
  | response (status_code : Nat)
  | connectionError
  | timeout
deriving DecidableEq, Repr

/-- `health_check(user)`.  `.ok b` is the boolean return value; `.error ()`
models the `NotImplementedError` raised when no HTTP(S) probe URL exists. -/
def health_check (params : List AnnotatedParameter) (urlAttr : Option String)
    (stageCI mockConnections : Bool) (probe : ProbeResult) : Except Unit Bool :=
  match get_health_check_url params urlAttr with
  | some url =>
    if strStartsWith url "http" then
      if stageCI || mockConnections then .ok true
      else
        match probe with
        | .response code =>
          if 400 ≤ code ∧ code ≤ 408 then .ok true
          else if 400 ≤ code ∧ code ≤ 599 then
            -- raise_for_status() raises HTTPError, caught: unhealthy
            .ok false
          else .ok true
        | .connectionError => .ok false
        | .timeout => .ok false
    else .error ()
  | none => .error ()

/-! ## The aggregation task (`engines_manager/tasks.py`) -/

/-- A job as the aggregation task sees it: a primary key and the aggregated
data model, an association of keys to values. -/
structure EngineJob where
  pk : Nat
  data_model : List (String × RValue)

/-- Lookup of a key in a data model. -/
def dmLookup (dm : List (String × RValue)) (k : String) : Option RValue :=
  (dm.find? (fun kv => kv.1 == k)).map (fun kv => kv.2)

/-- Modelled from the spec: `job.data_model.merge(module_result, append=False)`.
The `DataModel.merge` implementation is not under the sources; the spec states
it "merges the returned payload into the job's aggregated data model using
overwrite semantics (new keys replace, not append)".  So keys of the payload
replace equal keys of the base, and all other base entries are kept. -/
def mergeOverwrite (base payload : List (String × RValue)) :
    List (String × RValue) :=
  base.filter (fun kv => (payload.find? (fun kv2 => kv2.1 == kv.1)).isNone)
    ++ payload

/-- Failure modes of `execute_engine_module`: `Job.objects.get` raising
`DoesNotExist`, or `import_string(path)` failing to resolve the module. -/
inductive EngineError where
  | jobNotFound (job_pk : Nat)
  | moduleNotFound (path : String)
deriving DecidableEq, Repr

/-- `execute_engine_module(job_pk, path)`: load the job by primary key,
resolve the module by dotted path, run it on the job and merge its result
into the job's data model with `append=False`. -/
def execute_engine_module (jobs : List EngineJob)
    (modules : List (String × (EngineJob → List (String × RValue))))
    (job_pk : Nat) (path : String) : Except EngineError EngineJob :=
  match jobs.find? (fun j => j.pk == job_pk) with
  | none => .error (.jobNotFound job_pk)
  | some job =>
    match modules.find? (fun m => m.1 == path) with
    | none => .error (.moduleNotFound path)
    | some m =>
      let module_result := m.2 job
      .ok { job with data_model := mergeOverwrite job.data_model module_result }

/-! ## Derived characterizations of the lifecycle -/

/-- The condition under which `disable_for_rate_limit` actually invokes the
org configuration's disable action (assuming `config()` completed):
membership, a configured timeout, and no personal api key in use. -/
def shouldDisable (params : List Parameter) (job : Job) (p : PluginSpec) : Bool :=
  job.userHasMembership && p.orgRateLimitTimeout.isSome &&
    (match firstApiKeyParameter params with
     | none => true
     | some q => q.is_from_org || (!q.required && !optTruthy q.value))

theorem disable_some_eq (params : List Parameter) (job : Job) (p : PluginSpec)
    (s : ExecState) :
    disable_for_rate_limit (some params) job p s =
      .ok { s with disableCalls :=
        s.disableCalls + (if shouldDisable params job p then 1 else 0) } := by
  unfold disable_for_rate_limit shouldDisable
  cases hm : job.userHasMembership <;>
    cases ht : p.orgRateLimitTimeout <;>
      cases hk : firstApiKeyParameter params <;>
        · simp [hm, ht, hk]
          try (split <;> simp)

theorem after_run_failed_some_eq (params : List Parameter) (job : Job)
    (p : PluginSpec) (e : Exn) (s : ExecState) :
    after_run_failed (some params) job p e s =
      ({ s with
          report := { s.report with
            errors := s.report.errors ++ [e.msg]
            status := .FAILED }
          disableCalls := s.disableCalls +
            (if e.isRateLimit && shouldDisable params job p then 1 else 0) },
        if p.stageCI then some e else none) := by
  unfold after_run_failed
  cases hrl : e.isRateLimit <;> simp [hrl, disable_some_eq]

theorem after_run_failed_none_eq (job : Job) (p : PluginSpec) (e : Exn)
    (s : ExecState) :
    after_run_failed none job p e s =
      ({ s with
          report := { s.report with
            errors := s.report.errors ++ [e.msg]
            status := .FAILED } },
        if e.isRateLimit && job.userHasMembership && p.orgRateLimitTimeout.isSome
        then some attributeError
        else if p.stageCI then some e else none) := by
  unfold after_run_failed disable_for_rate_limit
  cases hrl : e.isRateLimit <;>
    cases hm : job.userHasMembership <;>
      cases ht : p.orgRateLimitTimeout <;> simp [hrl, hm, ht]

/-- Closed form of `start` when the job resolves, `config` and `before_run`
succeed, and `run` returns `r`. -/
theorem start_success_eq (store : List Job) (p : PluginSpec) (job_id : Nat)
    (task_id : String) (job : Job) (r : RValue)
    (hj : jobGet store job_id = some job)
    (hc : p.configRaises = none) (hb : p.beforeRunRaises = none)
    (hr : p.runOutcome = .ok r) :
    start store p job_id task_id = .ok
      { report :=
          { task_id := task_id
            status := .SUCCESS
            report := some (normalizeContent r)
            errors := []
            endTimeSets := 1 }
        disableCalls := 0
        afterRunCalls := 1
        raised := none } := by
  unfold start
  rw [hj]
  simp only [hc, hb, hr]
  rfl

/-- Closed form of `start` when the job resolves, `config` and `before_run`
succeed, and `run` raises `e`. -/
theorem start_runfail_eq (store : List Job) (p : PluginSpec) (job_id : Nat)
    (task_id : String) (job : Job) (e : Exn)
    (hj : jobGet store job_id = some job)
    (hc : p.configRaises = none) (hb : p.beforeRunRaises = none)
    (hr : p.runOutcome = .error e) :
    start store p job_id task_id = .ok
      { report :=
          { task_id := task_id
            status := .FAILED
            report := none
            errors := [e.msg]
            endTimeSets := 1 }
        disableCalls := if e.isRateLimit && shouldDisable p.params job p then 1 else 0
        afterRunCalls := 1
        raised := if p.stageCI then some e else none } := by
  unfold start
  rw [hj]
  simp only [hc, hb, hr]
  simp [after_run_failed_some_eq, after_run, generate_empty_report]

/-- Closed form of `start` when the job resolves, `config` succeeds, and
`before_run` raises `e`. -/
theorem start_beforefail_eq (store : List Job) (p : PluginSpec) (job_id : Nat)
    (task_id : String) (job : Job) (e : Exn)
    (hj : jobGet store job_id = some job)
    (hc : p.configRaises = none) (hb : p.beforeRunRaises = some e) :
    start store p job_id task_id = .ok
      { report :=
          { task_id := task_id
            status := .FAILED
            report := none
            errors := [e.msg]
            endTimeSets := 1 }
        disableCalls := if e.isRateLimit && shouldDisable p.params job p then 1 else 0
        afterRunCalls := 1
        raised := if p.stageCI then some e else none } := by
  unfold start
  rw [hj]
  simp only [hc, hb]
  simp [after_run_failed_some_eq, after_run, generate_empty_report]

/-- Closed form of `start` when the job resolves and parameter resolution
inside `config` raises `e` (so `self.__parameters` never exists). -/
theorem start_configfail_eq (store : List Job) (p : PluginSpec) (job_id : Nat)
    (task_id : String) (job : Job) (e : Exn)
    (hj : jobGet store job_id = some job)
    (hc : p.configRaises = some e) :
    start store p job_id task_id = .ok
      { report :=
          { task_id := task_id
            status := .FAILED
            report := none
            errors := [e.msg]
            endTimeSets := 1 }
        disableCalls := 0
        afterRunCalls := 1
        raised :=
          if e.isRateLimit && job.userHasMembership && p.orgRateLimitTimeout.isSome
          then some attributeError
          else if p.stageCI then some e else none } := by
  unfold start
  rw [hj]
  simp only [hc, after_run_failed_none_eq]
  rfl

/-- When the job id does not resolve, `start` raises before any report work. -/
theorem start_nojob_eq (store : List Job) (p : PluginSpec) (job_id : Nat)
    (task_id : String) (hj : jobGet store job_id = none) :
    start store p job_id task_id = .error (.jobNotFound job_id) := by
  unfold start
  rw [hj]

/-- Lookup characterization of the spec-modelled overwrite merge: a key present
in the payload takes the payload's value; any other key keeps the base value. -/
theorem dmLookup_mergeOverwrite (base payload : List (String × RValue)) (k : String) :
    dmLookup (mergeOverwrite base payload) k =
      match dmLookup payload k with
      | some v => some v
      | none => dmLookup base k := by
  unfold dmLookup mergeOverwrite
  induction base with
  | nil =>
    cases hp : payload.find? (fun kv => kv.1 == k) <;> simp [hp]
  | cons b bs ih =>
    rw [List.filter_cons]
    by_cases hbk : b.1 = k
    · have hqb : (payload.find? fun kv2 => kv2.1 == b.1) =
          payload.find? (fun kv2 => kv2.1 == k) := by rw [hbk]
      have hpkb : (b.1 == k) = true := by simp [hbk]
      cases hp : payload.find? (fun kv => kv.1 == k) with
      | some kv =>
        rw [hqb, hp]
        rw [if_neg (by simp)]
        rw [ih, hp]
        rfl
      | none =>
        rw [hqb, hp]
        rw [if_pos (by simp)]
        rw [List.cons_append,
          List.find?_cons_of_pos (p := fun kv : String × RValue => kv.1 == k) _ hpkb,
          List.find?_cons_of_pos (p := fun kv : String × RValue => kv.1 == k) _ hpkb]
        rfl
    · have hpkb : ¬ ((b.1 == k) = true) := by simp [hbk]
      cases hq : (payload.find? fun kv2 => kv2.1 == b.1).isNone with
      | true =>
        rw [if_pos (Eq.refl true)]
        rw [List.cons_append,
          List.find?_cons_of_neg (p := fun kv : String × RValue => kv.1 == k) _ hpkb,
          List.find?_cons_of_neg (p := fun kv : String × RValue => kv.1 == k) _ hpkb]
        exact ih
      | false =>
        rw [if_neg Bool.false_ne_true]
        rw [List.find?_cons_of_neg (p := fun kv : String × RValue => kv.1 == k) _ hpkb]
        exact ih

/-! ## Claims -/

/-- C1: for every execution of `start(jobId, runtimeConfiguration, taskId)`
that gets past the job lookup (so a report exists), regardless of whether
`run()` raises, the report reaches exactly one terminal status (SUCCESS or
FAILED, never RUNNING), and `after_run()` executes exactly once and is the
sole step that sets the report's end time: the end time is stamped exactly
once, by that one `after_run` call. -/
theorem C1_start_reaches_single_terminal_status (store : List Job)
    (p : PluginSpec) (job_id : Nat) (task_id : String) (out : Outcome)
    (h : start store p job_id task_id = .ok out) :
    (out.report.status = .SUCCESS ∨ out.report.status = .FAILED)
    ∧ out.report.status ≠ .RUNNING
    ∧ out.afterRunCalls = 1
    ∧ out.report.endTimeSets = 1 := by
  cases hj : jobGet store job_id with
  | none =>
    rw [start_nojob_eq store p job_id task_id hj] at h
    exact Except.noConfusion h
  | some job =>
    cases hc : p.configRaises with
    | some e =>
      rw [start_configfail_eq store p job_id task_id job e hj hc] at h
      simp only [Except.ok.injEq] at h
      subst h
      simp
    | none =>
      cases hb : p.beforeRunRaises with
      | some e =>
        rw [start_beforefail_eq store p job_id task_id job e hj hc hb] at h
        simp only [Except.ok.injEq] at h
        subst h
        simp
      | none =>
        cases hr : p.runOutcome with
        | ok r =>
          rw [start_success_eq store p job_id task_id job r hj hc hb hr] at h
          simp only [Except.ok.injEq] at h
          subst h
          simp
        | error e =>
          rw [start_runfail_eq store p job_id task_id job e hj hc hb hr] at h
          simp only [Except.ok.injEq] at h
          subst h
          simp

/-- Witness for C1 at a concrete successful execution. -/
theorem C1_witness :
    start [{ id := 7, userHasMembership := true }]
        { params := [], runOutcome := .ok (.vnum 1) } 7 "t1" =
      .ok { report := { task_id := "t1", status := .SUCCESS,
                        report := some (.vnum 1), errors := [], endTimeSets := 1 },
            disableCalls := 0, afterRunCalls := 1, raised := none }
    ∧ ((ReportStatus.SUCCESS = .SUCCESS ∨ ReportStatus.SUCCESS = .FAILED)
        ∧ ReportStatus.SUCCESS ≠ .RUNNING ∧ 1 = 1 ∧ 1 = 1) :=
  ⟨rfl, C1_start_reaches_single_terminal_status
      [{ id := 7, userHasMembership := true }]
      { params := [], runOutcome := .ok (.vnum 1) } 7 "t1"
      { report := { task_id := "t1", status := .SUCCESS,
                    report := some (.vnum 1), errors := [], endTimeSets := 1 },
        disableCalls := 0, afterRunCalls := 1, raised := none }
      rfl⟩

/-- C2: when `run()` returns without raising, the persisted report content is
the returned result with, for a list result, each `File` or `bytes` element
replaced by its base64 encoding and every other element unchanged; a non-list
result is persisted verbatim, and no entry is appended to the errors list. -/
theorem C2_success_persists_normalized_content (store : List Job)
    (p : PluginSpec) (job_id : Nat) (task_id : String) (out : Outcome)
    (r : RValue)
    (hc : p.configRaises = none) (hb : p.beforeRunRaises = none)
    (hr : p.runOutcome = .ok r)
    (h : start store p job_id task_id = .ok out) :
    out.report.report = some (normalizeContent r)
    ∧ out.report.errors = []
    ∧ out.report.status = .SUCCESS
    ∧ (∀ elems, r = .vlist elems →
        normalizeContent r = .vlist (elems.map fun n =>
          match n with
          | .vfile data => .vstr (b64encode data)
          | .vbytes data => .vstr (b64encode data)
          | other => other))
    ∧ (r.isList = false → normalizeContent r = r) := by
  cases hj : jobGet store job_id with
  | none =>
    rw [start_nojob_eq store p job_id task_id hj] at h
    exact Except.noConfusion h
  | some job =>
    rw [start_success_eq store p job_id task_id job r hj hc hb hr] at h
    simp only [Except.ok.injEq] at h
    subst h
    refine ⟨rfl, rfl, rfl, ?_, ?_⟩
    · rintro elems rfl
      rfl
    · intro hnl
      cases r <;> simp_all [normalizeContent, RValue.isList]

/-- Witness for C2: scenario of job #9, `run()` returning a list with one
file-like element and one string. -/
theorem C2_witness :
    start [{ id := 9, userHasMembership := false }]
        { params := [],
          runOutcome := .ok (.vlist [.vfile [77, 97, 110], .vstr "plain"]) }
        9 "t9" =
      .ok { report := { task_id := "t9", status := .SUCCESS,
                        report := some (.vlist [.vstr "TWFu", .vstr "plain"]),
                        errors := [], endTimeSets := 1 },
            disableCalls := 0, afterRunCalls := 1, raised := none }
    ∧ normalizeContent (.vlist [.vfile [77, 97, 110], .vstr "plain"]) =
        .vlist [.vstr "TWFu", .vstr "plain"]
    ∧ (some (normalizeContent (.vlist [.vfile [77, 97, 110], .vstr "plain"])) =
          some (RValue.vlist [.vstr "TWFu", .vstr "plain"])
        ∧ ([] : List String) = []) := by
  have h := C2_success_persists_normalized_content
    [{ id := 9, userHasMembership := false }]
    { params := [],
      runOutcome := .ok (.vlist [.vfile [77, 97, 110], .vstr "plain"]) }
    9 "t9" _ _ rfl rfl rfl rfl
  exact ⟨rfl, rfl, h.1, h.2.1⟩

/-- C3: when `run()` raises an exception whose type is in the plugin's
declared allow-list, the report's errors list gains exactly one entry, the
stringified exception, and the status becomes FAILED. -/
theorem C3_declared_error_recorded (store : List Job) (p : PluginSpec)
    (job_id : Nat) (task_id : String) (out : Outcome) (e : Exn)
    (hc : p.configRaises = none) (hb : p.beforeRunRaises = none)
    (hr : p.runOutcome = .error e) ( _hd : e.isDeclared = true)
    (h : start store p job_id task_id = .ok out) :
    out.report.errors = [e.msg] ∧ out.report.status = .FAILED := by
  cases hj : jobGet store job_id with
  | none =>
    rw [start_nojob_eq store p job_id task_id hj] at h
    exact Except.noConfusion h
  | some job =>
    rw [start_runfail_eq store p job_id task_id job e hj hc hb hr] at h
    simp only [Except.ok.injEq] at h
    subst h
    exact ⟨rfl, rfl⟩

/-- Witness for C3 at a concrete declared (allow-listed) exception. -/
theorem C3_witness :
    start [{ id := 4, userHasMembership := false }]
        { params := [],
          runOutcome := .error { msg := "malformed target", isDeclared := true } }
        4 "t4" =
      .ok { report := { task_id := "t4", status := .FAILED, report := none,
                        errors := ["malformed target"], endTimeSets := 1 },
            disableCalls := 0, afterRunCalls := 1, raised := none }
    ∧ Exn.isDeclared { msg := "malformed target", isDeclared := true } = true
    ∧ (["malformed target"] = ["malformed target"]
        ∧ ReportStatus.FAILED = .FAILED) := by
  have h := C3_declared_error_recorded [{ id := 4, userHasMembership := false }]
    { params := [],
      runOutcome := .error { msg := "malformed target", isDeclared := true } }
    4 "t4" _ _ rfl rfl rfl rfl rfl
  exact ⟨rfl, rfl, h⟩

/-- C4: when `run()` raises an HTTP error with response status 429, the
acting user's job has organization membership, the organization configuration
has a non-null rate-limit timeout, and the api_key-named parameter is absent
or organization-sourced, the organization configuration's disable action is
invoked exactly once. -/
theorem C4_org_key_rate_limit_disables_once (store : List Job)
    (p : PluginSpec) (job_id : Nat) (task_id : String) (out : Outcome)
    (e : Exn) (job : Job)
    (hj : jobGet store job_id = some job)
    (hc : p.configRaises = none) (hb : p.beforeRunRaises = none)
    (hr : p.runOutcome = .error e)
    (hhttp : e.isHTTPError = true) (h429 : e.responseStatusCode = some 429)
    (hm : job.userHasMembership = true)
    (ht : p.orgRateLimitTimeout ≠ none)
    (hkey : ∀ q, firstApiKeyParameter p.params = some q → q.is_from_org = true)
    (h : start store p job_id task_id = .ok out) :
    out.disableCalls = 1 := by
  rw [start_runfail_eq store p job_id task_id job e hj hc hb hr] at h
  simp only [Except.ok.injEq] at h
  subst h
  have h1 : e.isRateLimit = true := by
    simp [Exn.isRateLimit, hhttp, h429]
  have h2 : shouldDisable p.params job p = true := by
    unfold shouldDisable
    rw [hm]
    cases hto : p.orgRateLimitTimeout with
    | none => exact absurd hto ht
    | some t =>
      cases hk : firstApiKeyParameter p.params with
      | none => simp
      | some q => simp [hkey q hk]
  simp [h1, h2]

/-- Witness for C4: scenario of job #8, org-sourced API key, timeout 3600s,
`run()` raising HTTP 429. -/
theorem C4_witness :
    jobGet [{ id := 8, userHasMembership := true }] 8 =
      some { id := 8, userHasMembership := true }
    ∧ (some 3600 : Option Nat) ≠ none
    ∧ start [{ id := 8, userHasMembership := true }]
        { params := [{ name := "service_api_key", value := some "orgkey",
                       is_secret := true, required := true, is_from_org := true }],
          runOutcome := .error { msg := "429 Too Many Requests",
                                 isHTTPError := true,
                                 responseStatusCode := some 429 },
          orgRateLimitTimeout := some 3600 }
        8 "t8" =
      .ok { report := { task_id := "t8", status := .FAILED, report := none,
                        errors := ["429 Too Many Requests"], endTimeSets := 1 },
            disableCalls := 1, afterRunCalls := 1, raised := none }
    ∧ (1 : Nat) = 1 := by
  refine ⟨rfl, by decide, rfl, ?_⟩
  exact C4_org_key_rate_limit_disables_once
    [{ id := 8, userHasMembership := true }]
    { params := [{ name := "service_api_key", value := some "orgkey",
                   is_secret := true, required := true, is_from_org := true }],
      runOutcome := .error { msg := "429 Too Many Requests",
                             isHTTPError := true,
                             responseStatusCode := some 429 },
      orgRateLimitTimeout := some 3600 }
    8 "t8"
    { report := { task_id := "t8", status := .FAILED, report := none,
                  errors := ["429 Too Many Requests"], endTimeSets := 1 },
      disableCalls := 1, afterRunCalls := 1, raised := none }
    { msg := "429 Too Many Requests", isHTTPError := true,
      responseStatusCode := some 429 }
    { id := 8, userHasMembership := true }
    rfl rfl rfl rfl rfl rfl rfl (by decide)
    (by intro q hq
        simp only [show firstApiKeyParameter
            [{ name := "service_api_key", value := some "orgkey",
               is_secret := true, required := true, is_from_org := true }] =
            some { name := "service_api_key", value := some "orgkey",
                   is_secret := true, required := true, is_from_org := true }
          from rfl, Option.some.injEq] at hq
        subst hq
        rfl)
    rfl

/-- C5 counterexample: a required personal api-key parameter whose value is
not set.  The claim says the organization-wide disable is skipped only for a
"required-and-supplied" personal key, so here — required but *not* supplied —
it predicts the disable proceeds; the code's condition
`not required and not value` is false for it, so the code skips the disable:
the breaker call count is 0, not 1. -/
theorem C5_counterexample :
    Except.map (fun o => o.disableCalls)
      (start [{ id := 7, userHasMembership := true }]
        { params := [{ name := "service_api_key", value := none,
                       is_secret := true, required := true, is_from_org := false }],
          runOutcome := .error { msg := "429 Too Many Requests",
                                 isHTTPError := true,
                                 responseStatusCode := some 429 },
          orgRateLimitTimeout := some 3600 }
        7 "t7") = .ok 0 := by
  rfl

/-- C5 (amended): on a 429 failure with membership and a non-null rate-limit
timeout, the breaker skips the organization-wide disable exactly when the
first api_key-named parameter exists, is non-organization-sourced, and is
required *or* has a value set; otherwise (including when no such parameter
exists) the disable proceeds, exactly once. -/
theorem C5_personal_key_skip_iff (store : List Job) (p : PluginSpec)
    (job_id : Nat) (task_id : String) (out : Outcome) (e : Exn) (job : Job)
    (hj : jobGet store job_id = some job)
    (hc : p.configRaises = none) (hb : p.beforeRunRaises = none)
    (hr : p.runOutcome = .error e)
    (hhttp : e.isHTTPError = true) (h429 : e.responseStatusCode = some 429)
    (hm : job.userHasMembership = true)
    (ht : p.orgRateLimitTimeout ≠ none)
    (h : start store p job_id task_id = .ok out) :
    (out.disableCalls = 0 ↔
      ∃ q, firstApiKeyParameter p.params = some q ∧ q.is_from_org = false
        ∧ (q.required = true ∨ optTruthy q.value = true))
    ∧ (out.disableCalls = 0 ∨ out.disableCalls = 1) := by
  rw [start_runfail_eq store p job_id task_id job e hj hc hb hr] at h
  simp only [Except.ok.injEq] at h
  subst h
  have h1 : e.isRateLimit = true := by
    simp [Exn.isRateLimit, hhttp, h429]
  unfold shouldDisable
  rw [h1, hm]
  cases hto : p.orgRateLimitTimeout with
  | none => exact absurd hto ht
  | some t =>
    cases hk : firstApiKeyParameter p.params with
    | none => simp [hk]
    | some q =>
      cases hfo : q.is_from_org <;>
        cases hrq : q.required <;>
          cases hv : optTruthy q.value <;>
            simp [hk, hfo, hrq, hv]

/-- Witness for the amended C5: scenario of job #7, one required personal
api-key parameter with a value set, `run()` raising HTTP 429: the disable is
skipped. -/
theorem C5_witness :
    start [{ id := 7, userHasMembership := true }]
        { params := [{ name := "service_api_key", value := some "mykey",
                       is_secret := true, required := true, is_from_org := false }],
          runOutcome := .error { msg := "429 Too Many Requests",
                                 isHTTPError := true,
                                 responseStatusCode := some 429 },
          orgRateLimitTimeout := some 3600 }
        7 "t7" =
      .ok { report := { task_id := "t7", status := .FAILED, report := none,
                        errors := ["429 Too Many Requests"], endTimeSets := 1 },
            disableCalls := 0, afterRunCalls := 1, raised := none }
    ∧ ((0 : Nat) = 0 ↔
        ∃ q, firstApiKeyParameter
            [{ name := "service_api_key", value := some "mykey",
               is_secret := true, required := true, is_from_org := false }] =
            some q ∧ q.is_from_org = false
          ∧ (q.required = true ∨ optTruthy q.value = true)) := by
  refine ⟨rfl, ?_⟩
  exact (C5_personal_key_skip_iff
    [{ id := 7, userHasMembership := true }]
    { params := [{ name := "service_api_key", value := some "mykey",
                   is_secret := true, required := true, is_from_org := false }],
      runOutcome := .error { msg := "429 Too Many Requests",
                             isHTTPError := true,
                             responseStatusCode := some 429 },
      orgRateLimitTimeout := some 3600 }
    7 "t7"
    { report := { task_id := "t7", status := .FAILED, report := none,
                  errors := ["429 Too Many Requests"], endTimeSets := 1 },
      disableCalls := 0, afterRunCalls := 1, raised := none }
    { msg := "429 Too Many Requests", isHTTPError := true,
      responseStatusCode := some 429 }
    { id := 7, userHasMembership := true }
    rfl rfl rfl rfl rfl rfl rfl (by decide) rfl).1

/-- C6: for `health_check(user)` outside the mocked test modes: a probe URL
whose HEAD request yields a status code in 400–408 (e.g. 405) is healthy
(`true`); a connection error or timeout is unhealthy (`false`); and when no
probe URL resolves at all the outcome is the distinct `NotImplementedError`
signal, which is neither the healthy nor the unhealthy value. -/
theorem C6_health_check_classification (params : List AnnotatedParameter)
    (urlAttr : Option String) (url : String) (code : Nat)
    (hu : get_health_check_url params urlAttr = some url)
    (hhttp : strStartsWith url "http" = true)
    (h1 : 400 ≤ code) (h2 : code ≤ 408) :
    health_check params urlAttr false false (.response code) = .ok true
    ∧ health_check params urlAttr false false .connectionError = .ok false
    ∧ health_check params urlAttr false false .timeout = .ok false
    ∧ (∀ (params2 : List AnnotatedParameter) (urlAttr2 : Option String)
        (probe : ProbeResult), get_health_check_url params2 urlAttr2 = none →
        health_check params2 urlAttr2 false false probe = .error ())
    ∧ (∀ b : Bool, (Except.error () : Except Unit Bool) ≠ .ok b) := by
  refine ⟨?_, ?_, ?_, ?_, ?_⟩
  · unfold health_check
    rw [hu]
    simp [hhttp, h1, h2]
  · unfold health_check
    rw [hu]
    simp [hhttp]
  · unfold health_check
    rw [hu]
    simp [hhttp]
  · intro params2 urlAttr2 probe hnone
    unfold health_check
    rw [hnone]
  · intro b hb
    exact Except.noConfusion hb

/-- Witness for C6 at a concrete probe URL, status 405, a timeout, and the
no-URL configuration. -/
theorem C6_witness :
    get_health_check_url [] (some "http://example.com") =
      some "http://example.com"
    ∧ strStartsWith "http://example.com" "http" = true
    ∧ 400 ≤ 405 ∧ 405 ≤ 408
    ∧ health_check [] (some "http://example.com") false false (.response 405) =
        .ok true
    ∧ health_check [] (some "http://example.com") false false .timeout =
        .ok false
    ∧ health_check [] none false false .connectionError = .error () := by
  have h := C6_health_check_classification [] (some "http://example.com")
    "http://example.com" 405 rfl (by decide) (by decide) (by decide)
  exact ⟨rfl, by decide, by decide, by decide, h.1, h.2.2.1,
    h.2.2.2.1 [] none .connectionError rfl⟩

/-- C7: a `start` call with a jobId that does not resolve to an existing job
raises the lookup failure to the caller — it is not caught by the run-time
try block — and, the error branch being taken before `generate_empty_report`,
no report outcome exists: `start` never returns `.ok`. -/
theorem C7_lookup_failure_propagates (store : List Job) (p : PluginSpec)
    (job_id : Nat) (task_id : String)
    (h : jobGet store job_id = none) :
    start store p job_id task_id = .error (.jobNotFound job_id)
    ∧ ∀ out : Outcome, start store p job_id task_id ≠ .ok out := by
  have heq := start_nojob_eq store p job_id task_id h
  refine ⟨heq, fun out hout => ?_⟩
  rw [heq] at hout
  exact Except.noConfusion hout

/-- Witness for C7: an empty job store. -/
theorem C7_witness :
    jobGet [] 5 = none
    ∧ start [] { params := [], runOutcome := .ok (.vnum 0) } 5 "t5" =
        .error (.jobNotFound 5) :=
  ⟨rfl, (C7_lookup_failure_propagates []
    { params := [], runOutcome := .ok (.vnum 0) } 5 "t5" rfl).1⟩

/-- C8 counterexample: `before_run()` raising is *caught* by the run-time
`except Exception` handler.  At a concrete execution where `before_run`
raises and strict-CI mode is off, nothing propagates to the caller
(`raised = none`) and the exception is recorded into the report as a per-job
failure (status FAILED, error appended) — contradicting the claim that an
exception in `before_run` is not caught and propagates as a fatal defect. -/
theorem C8_counterexample :
    Except.map (fun o => (o.raised, o.report.status, o.report.errors))
      (start [{ id := 7, userHasMembership := false }]
        { params := [], beforeRunRaises := some { msg := "boom" },
          runOutcome := .ok (.vnum 0) }
        7 "t") = .ok (none, .FAILED, ["boom"]) := by
  rfl

/-- C8 (amended): an exception raised inside `before_run()` IS caught by the
Execution Engine's run-time error handler: it is recorded into the report as
a per-job failure (status FAILED, errors gains the stringified exception) and,
outside strict-CI mode, does not propagate to the caller.  (`after_run()`,
running in the `finally` block, is outside that handler.) -/
theorem C8_before_run_exception_is_caught (store : List Job) (p : PluginSpec)
    (job_id : Nat) (task_id : String) (out : Outcome) (e : Exn)
    (hc : p.configRaises = none) (hb : p.beforeRunRaises = some e)
    (hci : p.stageCI = false)
    (h : start store p job_id task_id = .ok out) :
    out.raised = none
    ∧ out.report.status = .FAILED
    ∧ out.report.errors = [e.msg] := by
  cases hj : jobGet store job_id with
  | none =>
    rw [start_nojob_eq store p job_id task_id hj] at h
    exact Except.noConfusion h
  | some job =>
    rw [start_beforefail_eq store p job_id task_id job e hj hc hb] at h
    simp only [Except.ok.injEq] at h
    subst h
    refine ⟨?_, rfl, rfl⟩
    simp [hci]

/-- Witness for the amended C8. -/
theorem C8_witness :
    start [{ id := 7, userHasMembership := false }]
        { params := [], beforeRunRaises := some { msg := "boom" },
          runOutcome := .ok (.vnum 0) }
        7 "t" =
      .ok { report := { task_id := "t", status := .FAILED, report := none,
                        errors := ["boom"], endTimeSets := 1 },
            disableCalls := 0, afterRunCalls := 1, raised := none }
    ∧ ((none : Option Exn) = none
        ∧ ReportStatus.FAILED = .FAILED ∧ ["boom"] = ["boom"]) := by
  refine ⟨rfl, ?_⟩
  exact C8_before_run_exception_is_caught
    [{ id := 7, userHasMembership := false }]
    { params := [], beforeRunRaises := some { msg := "boom" },
      runOutcome := .ok (.vnum 0) }
    7 "t"
    { report := { task_id := "t", status := .FAILED, report := none,
                  errors := ["boom"], endTimeSets := 1 },
      disableCalls := 0, afterRunCalls := 1, raised := none }
    { msg := "boom" }
    rfl rfl rfl rfl

/-- C9: the aggregation entry point loads the job by its identifier, runs the
resolved module's `run()`, and merges the returned payload into the job's
aggregated data model with overwrite semantics: for every key, the merged
model yields the payload's value when the payload has the key (new keys
replace existing ones), and the job's previous value otherwise. -/
theorem C9_engine_module_merges_with_overwrite (jobs : List EngineJob)
    (modules : List (String × (EngineJob → List (String × RValue))))
    (job_pk : Nat) (path : String) (job : EngineJob)
    (m : String × (EngineJob → List (String × RValue)))
    (hj : jobs.find? (fun j => j.pk == job_pk) = some job)
    (hm : modules.find? (fun x => x.1 == path) = some m) :
    execute_engine_module jobs modules job_pk path =
      .ok { job with data_model := mergeOverwrite job.data_model (m.2 job) }
    ∧ ∀ k, dmLookup (mergeOverwrite job.data_model (m.2 job)) k =
        match dmLookup (m.2 job) k with
        | some v => some v
        | none => dmLookup job.data_model k := by
  constructor
  · unfold execute_engine_module
    rw [hj, hm]
  · intro k
    exact dmLookup_mergeOverwrite job.data_model (m.2 job) k

/-- Witness for C9: a two-key data model where the module payload overwrites
one key and leaves the other. -/
theorem C9_witness :
    (([{ pk := 3, data_model := [("score", RValue.vnum 1), ("kept", RValue.vnum 2)] }]
        : List EngineJob).find? (fun j => j.pk == 3) =
      some { pk := 3, data_model := [("score", RValue.vnum 1), ("kept", RValue.vnum 2)] })
    ∧ execute_engine_module
        [{ pk := 3, data_model := [("score", RValue.vnum 1), ("kept", RValue.vnum 2)] }]
        [("engines.score", fun _ => [("score", RValue.vnum 9)])]
        3 "engines.score" =
      .ok { pk := 3,
            data_model := [("kept", RValue.vnum 2), ("score", RValue.vnum 9)] }
    ∧ dmLookup [("kept", RValue.vnum 2), ("score", RValue.vnum 9)] "score" =
        some (RValue.vnum 9)
    ∧ dmLookup [("kept", RValue.vnum 2), ("score", RValue.vnum 9)] "kept" =
        some (RValue.vnum 2) := by
  have h := C9_engine_module_merges_with_overwrite
    [{ pk := 3, data_model := [("score", RValue.vnum 1), ("kept", RValue.vnum 2)] }]
    [("engines.score", fun _ => [("score", RValue.vnum 9)])]
    3 "engines.score"
    { pk := 3, data_model := [("score", RValue.vnum 1), ("kept", RValue.vnum 2)] }
    ("engines.score", fun _ => [("score", RValue.vnum 9)])
    rfl rfl
  exact ⟨rfl, h.1, rfl, rfl⟩

/-- C10: the success-path binary normalization applies only to list-valued
results: a non-list payload is persisted exactly as `run()` returned it, with
no base64 encoding, even when it is itself a `bytes` object or a file-like
object. -/
theorem C10_nonlist_payload_persisted_verbatim (store : List Job)
    (p : PluginSpec) (job_id : Nat) (task_id : String) (out : Outcome)
    (r : RValue)
    (hc : p.configRaises = none) (hb : p.beforeRunRaises = none)
    (hr : p.runOutcome = .ok r) (hnl : r.isList = false)
    (h : start store p job_id task_id = .ok out) :
    out.report.report = some r := by
  cases hj : jobGet store job_id with
  | none =>
    rw [start_nojob_eq store p job_id task_id hj] at h
    exact Except.noConfusion h
  | some job =>
    rw [start_success_eq store p job_id task_id job r hj hc hb hr] at h
    simp only [Except.ok.injEq] at h
    subst h
    show some (normalizeContent r) = some r
    cases r <;> simp_all [normalizeContent, RValue.isList]

/-- Witness for C10: a bare `bytes` payload is persisted verbatim, not
base64-encoded. -/
theorem C10_witness :
    RValue.isList (.vbytes [77, 97, 110]) = false
    ∧ start [{ id := 2, userHasMembership := false }]
        { params := [], runOutcome := .ok (.vbytes [77, 97, 110]) } 2 "t2" =
      .ok { report := { task_id := "t2", status := .SUCCESS,
                        report := some (.vbytes [77, 97, 110]),
                        errors := [], endTimeSets := 1 },
            disableCalls := 0, afterRunCalls := 1, raised := none }
    ∧ (some (RValue.vbytes [77, 97, 110]) = some (.vbytes [77, 97, 110])) := by
  refine ⟨rfl, rfl, ?_⟩
  exact C10_nonlist_payload_persisted_verbatim
    [{ id := 2, userHasMembership := false }]
    { params := [], runOutcome := .ok (.vbytes [77, 97, 110]) }
    2 "t2"
    { report := { task_id := "t2", status := .SUCCESS,
                  report := some (.vbytes [77, 97, 110]),
                  errors := [], endTimeSets := 1 },
      disableCalls := 0, afterRunCalls := 1, raised := none }
    (.vbytes [77, 97, 110])
    rfl rfl rfl rfl rfl

end IntelOwl
